import Mathlib

set_option maxRecDepth 10000

/-!
Verification of the queue-mediated dialogue core of the `dialogLLM`
repository.  The Python sources under `src/dialogllm/` are shallowly
embedded: dictionaries become association lists over a JSON value type,
exceptions become an explicit error type threaded through `Except` (or a
state-plus-optional-error pair where Python mutates before raising), and
`datetime.now()` becomes an explicit `Time` parameter.
-/

namespace DialogLLM

/-- Python exception kinds reachable in the embedded code paths. -/
inductive PyErr where
  | typeError
  | keyError
  | attributeError
  | valueError
  | timeoutError
  | jsonDecodeError
  | validationError
  | connectionError
  | personaParsingError
  deriving DecidableEq, Repr

/-- Wall-clock instants (`datetime.now()` results), abstracted. -/
def Time := Nat

instance : DecidableEq Time := instDecidableEqNat

instance : OfNat Time n := ⟨(n : Nat)⟩

instance : Repr Time := instReprNat

instance : ToString Time := instToStringNat

/-- JSON values, the image of Python's `json.loads` on the payloads the
repository exchanges.  Numbers are kept exact (the code only carries them
through). -/
inductive Json where
  | str (s : String)
  | num (q : ℚ)
  | jbool (b : Bool)
  | null
  | arr (xs : List Json)
  | obj (fields : List (String × Json))
  | time (t : Time)

-- `Json.time` represents the non-JSON Python values (datetime objects)
-- that the conversation manager stores in its in-memory dicts; `jsonLoads`
-- never produces it.

/-- Python truthiness (`if x:`) for JSON-shaped values. -/
def Json.pyTruthy : Json → Bool
  | .str s => s != ""
  | .num q => q != 0
  | .jbool b => b
  | .null => false
  | .arr xs => !xs.isEmpty
  | .obj fs => !fs.isEmpty
  | .time _ => true

mutual

/-- Python `==` on JSON-shaped values. -/
def Json.beq : Json → Json → Bool
  | .str a, .str b => a == b
  | .num a, .num b => a == b
  | .jbool a, .jbool b => a == b
  | .null, .null => true
  | .arr a, .arr b => Json.beqList a b
  | .obj a, .obj b => Json.beqFields a b
  | .time a, .time b => a == b
  | _, _ => false

/-- Elementwise `Json.beq` on lists. -/
def Json.beqList : List Json → List Json → Bool
  | [], [] => true
  | x :: xs, y :: ys => Json.beq x y && Json.beqList xs ys
  | _, _ => false

/-- Elementwise `Json.beq` on object fields. -/
def Json.beqFields : List (String × Json) → List (String × Json) → Bool
  | [], [] => true
  | (k1, v1) :: xs, (k2, v2) :: ys =>
      k1 == k2 && Json.beq v1 v2 && Json.beqFields xs ys
  | _, _ => false

end

/-- Python hashability of a JSON-shaped value (lists and dicts are
unhashable; using one as a dict key or in `in` raises `TypeError`). -/
def pyHashable : Json → Bool
  | .arr _ => false
  | .obj _ => false
  | _ => true

/-- First binding of key `k` in a Python-dict association list. -/
def dictLookup {α : Type} (fields : List (String × α)) (k : String) : Option α :=
  (fields.find? (fun kv => kv.1 = k)).map (·.2)

/-- Python `d[k] = v`: update the binding in place if the key is present,
else append (dicts keep insertion order; a dict never holds a key twice,
so updating the first binding models the update exactly). -/
def dictSet {α : Type} (d : List (String × α)) (k : String) (v : α) :
    List (String × α) :=
  match d with
  | [] => [(k, v)]
  | (k1, v1) :: rest =>
      if k1 = k then (k, v) :: rest else (k1, v1) :: dictSet rest k v

/-- Python `d.get(k, default)` on a JSON value; a non-dict receiver has no
`get` attribute. -/
def pyGet (j : Json) (k : String) (dflt : Json) : Except PyErr Json :=
  match j with
  | .obj fs => .ok ((dictLookup fs k).getD dflt)
  | _ => .error .attributeError

/-- Python `d[k]` on a JSON value (KeyError when absent). -/
def pyIndex (j : Json) (k : String) : Except PyErr Json :=
  match j with
  | .obj fs =>
      match dictLookup fs k with
      | some v => .ok v
      | none => .error .keyError
  | _ => .error .typeError

/-! ### A model of `json.loads` / `json.dumps`

The standard-library JSON codec is external to the repository; it is
modelled by an executable parser for the JSON fragment the repository
exchanges (objects, arrays, strings with simple escapes, decimal numbers,
booleans, null).  `json.dumps` followed by `json.loads` is the identity on
such values, so the broker wire format is modelled at the value level by
`Json` itself. -/

/-- JSON whitespace characters. -/
def jsonWsChar (c : Char) : Bool :=
  decide (c = ' ') || decide (c = '\n') || decide (c = '\t') || decide (c = '\r')

/-- Skip JSON whitespace. -/
def skipWs (cs : List Char) : List Char :=
  match cs with
  | [] => []
  | c :: rest => if jsonWsChar c then skipWs rest else cs

/-- Decode a JSON string-literal escape character. -/
def escChar (e : Char) : Option Char :=
  if e = '"' then some '"'
  else if e = '\\' then some '\\'
  else if e = '/' then some '/'
  else if e = 'n' then some '\n'
  else if e = 't' then some '\t'
  else if e = 'r' then some '\r'
  else none

/-- Parse the body of a JSON string literal (opening quote consumed). -/
def parseStrChars : List Char → Option (List Char × List Char)
  | [] => none
  | c :: rest =>
      if c = '"' then some ([], rest)
      else if c = '\\' then
        match rest with
        | [] => none
        | e :: rest1 =>
            match escChar e, parseStrChars rest1 with
            | some dec, some p => some (dec :: p.1, p.2)
            | _, _ => none
      else
        match parseStrChars rest with
        | some p => some (c :: p.1, p.2)
        | none => none

/-- Accumulate a decimal digit run into a value. -/
def digitsVal (acc : Nat) : List Char → Nat
  | [] => acc
  | c :: rest => digitsVal (acc * 10 + (c.toNat - 48)) rest

/-- Split a leading run of decimal digits. -/
def splitDigits : List Char → List Char × List Char
  | [] => ([], [])
  | c :: rest =>
      if c.isDigit then
        match splitDigits rest with
        | (ds, r) => (c :: ds, r)
      else ([], c :: rest)

/-- Parse a JSON number (optional sign, digits, optional fraction). -/
def parseNum (input : List Char) : Option (ℚ × List Char) :=
  let signed :=
    match input with
    | '-' :: r => (true, r)
    | r => (false, r)
  match splitDigits signed.2 with
  | ([], _) => none
  | (intDs, rest1) =>
      let whole : ℚ := (digitsVal 0 intDs : ℚ)
      let valRest : ℚ × List Char :=
        match rest1 with
        | '.' :: r =>
            match splitDigits r with
            | (fracDs, r2) =>
                (whole + (digitsVal 0 fracDs : ℚ) / ((10 : ℚ) ^ fracDs.length), r2)
        | r => (whole, r)
      some (if signed.1 then -valRest.1 else valRest.1, valRest.2)

mutual

/-- Parse one JSON value. -/
def parseVal : Nat → List Char → Option (Json × List Char)
  | 0, _ => none
  | fuel + 1, input =>
      match skipWs input with
      | '"' :: rest => (parseStrChars rest).map (fun p => (.str ⟨p.1⟩, p.2))
      | '{' :: rest => parseObjFields fuel (skipWs rest) [] true
      | '[' :: rest => parseArrItems fuel (skipWs rest) [] true
      | 't' :: 'r' :: 'u' :: 'e' :: rest => some (.jbool true, rest)
      | 'f' :: 'a' :: 'l' :: 's' :: 'e' :: rest => some (.jbool false, rest)
      | 'n' :: 'u' :: 'l' :: 'l' :: rest => some (.null, rest)
      | other => (parseNum other).map (fun p => (.num p.1, p.2))

/-- Parse the members of a JSON object after `{` (later duplicate keys
overwrite earlier ones, as in `json.loads`). -/
def parseObjFields : Nat → List Char → List (String × Json) → Bool →
    Option (Json × List Char)
  | 0, _, _, _ => none
  | _ + 1, '}' :: rest, acc, true => some (.obj acc, rest)
  | fuel + 1, input, acc, _ =>
      match skipWs input with
      | '"' :: rest =>
          match parseStrChars rest with
          | none => none
          | some (kcs, rest1) =>
              match skipWs rest1 with
              | ':' :: rest2 =>
                  match parseVal fuel rest2 with
                  | none => none
                  | some (v, rest3) =>
                      let acc1 := dictSet acc ⟨kcs⟩ v
                      match skipWs rest3 with
                      | ',' :: rest4 => parseObjFields fuel (skipWs rest4) acc1 false
                      | '}' :: rest4 => some (.obj acc1, rest4)
                      | _ => none
              | _ => none
      | _ => none

/-- Parse the items of a JSON array after `[`. -/
def parseArrItems : Nat → List Char → List Json → Bool →
    Option (Json × List Char)
  | 0, _, _, _ => none
  | _ + 1, ']' :: rest, acc, true => some (.arr acc.reverse, rest)
  | fuel + 1, input, acc, _ =>
      match parseVal fuel input with
      | none => none
      | some (v, rest) =>
          match skipWs rest with
          | ',' :: rest1 => parseArrItems fuel (skipWs rest1) (v :: acc) false
          | ']' :: rest1 => some (.arr (v :: acc).reverse, rest1)
          | _ => none

end

/-- Model of `json.loads`: parse a complete JSON document, `none` on any
decode failure (Python raises `json.JSONDecodeError`). -/
def jsonLoads (s : String) : Option Json :=
  match parseVal (s.length + 1) s.toList with
  | some (j, rest) => if (skipWs rest).isEmpty then some j else none
  | none => none

/-! ### Python string helpers used by the persona parser

These model Python's `str` methods directly by structural recursion over
the character list (the repository's inputs are ASCII). -/

/-- Python whitespace for `str.strip()`. -/
def isPyWs (c : Char) : Bool :=
  c = ' ' ∨ c = '\n' ∨ c = '\t' ∨ c = '\r' ∨ c = '\x0b' ∨ c = '\x0c'

/-- Python `str.strip()`. -/
def pyStrip (s : String) : String :=
  ⟨((s.toList.dropWhile isPyWs).reverse.dropWhile isPyWs).reverse⟩

/-- ASCII lower-casing of one character. -/
def asciiLower (c : Char) : Char :=
  if 'A' ≤ c ∧ c ≤ 'Z' then Char.ofNat (c.toNat + 32) else c

/-- Python `str.lower()` (ASCII, which covers the repository's inputs). -/
def pyLower (s : String) : String := ⟨s.toList.map asciiLower⟩

/-- Whether the first list starts the second. -/
def leadsWith : List Char → List Char → Bool
  | [], _ => true
  | _ :: _, [] => false
  | p :: ps, c :: cs => p = c && leadsWith ps cs

/-- Python `s.startswith(pre)`. -/
def pyStartsWith (s pre : String) : Bool := leadsWith pre.toList s.toList

/-- Occurrence of `sub` anywhere in the character list. -/
def containsSeq (sub : List Char) : List Char → Bool
  | [] => leadsWith sub []
  | c :: rest => leadsWith sub (c :: rest) || containsSeq sub rest

/-- Python `sub in s` substring membership. -/
def pyInStr (sub s : String) : Bool := containsSeq sub.toList s.toList

/-- Python `s.split(sep)` for a one-character separator. -/
def charsSplitOn (sep : Char) : List Char → List (List Char)
  | [] => [[]]
  | c :: rest =>
      let r := charsSplitOn sep rest
      if c = sep then [] :: r
      else
        match r with
        | [] => [[c]]
        | x :: xs => (c :: x) :: xs

/-- Python `s.split(sep)` for a one-character separator. -/
def pySplitChar (s : String) (sep : Char) : List String :=
  (charsSplitOn sep s.toList).map (fun cs => ⟨cs⟩)

/-- Split at the first occurrence of `sep`, when present. -/
def splitFirstChar (sep : Char) : List Char → Option (List Char × List Char)
  | [] => none
  | c :: rest =>
      if c = sep then some ([], rest)
      else (splitFirstChar sep rest).map (fun p => (c :: p.1, p.2))

/-- Python `s.split(sep, 1)` for a one-character separator (the callers
guard on `sep in s`). -/
def pySplitFirst (s : String) (sep : Char) : String × String :=
  match splitFirstChar sep s.toList with
  | some (a, b) => (⟨a⟩, ⟨b⟩)
  | none => (s, "")

/-- Python `s.replace(a, b)` for one-character arguments. -/
def pyReplaceChar (s : String) (a b : Char) : String :=
  ⟨s.toList.map (fun c => if c = a then b else c)⟩

/-- Python `s[:n]`. -/
def pyTake (s : String) (n : Nat) : String := ⟨s.toList.take n⟩

/-- Python `sep.join(parts)`. -/
def joinWith (sep : String) : List String → String
  | [] => ""
  | [x] => x
  | x :: rest => x ++ sep ++ joinWith sep rest

/-- Python `s.find(c)` / `s.rfind(c)` based slice `s[first{:]..last}+1]` used
by `_extract_json_safely`: the substring from the first `{` to the last `}`
inclusive, when both exist. -/
def braceSlice (s : String) : Option String :=
  let cs := s.toList
  if cs.contains '{' ∧ cs.contains '}' then
    let fromFirst := cs.dropWhile (fun c => c ≠ '{')
    let upToLast := (fromFirst.reverse.dropWhile (fun c => c ≠ '}')).reverse
    some ⟨upToLast⟩
  else none

/-! ### Pydantic models from `dialogllm/models/dialogue.py`

Pydantic construction is modelled by smart constructors that return
`Except PyErr`: `.error .validationError` exactly when a declared field
constraint fails.  String fields accept string JSON values; pydantic's
lenient cross-type coercions are outside the modelled fragment (all inputs
considered here are well-typed). -/

/-- `PersonaBackground` (fields of the pydantic model). -/
structure PersonaBackground where
  historical_context : String
  expertise_areas : List String
  philosophical_stance : String
  deriving DecidableEq, Repr

/-- `PersonaBackground(...)` with its field constraints
(`min_length=10`, `min_items=1`, `min_length=10`). -/
def mkPersonaBackground (hc : String) (ea : List String) (ps : String) :
    Except PyErr PersonaBackground :=
  if 10 ≤ hc.length ∧ 1 ≤ ea.length ∧ 10 ≤ ps.length then
    .ok ⟨hc, ea, ps⟩
  else .error .validationError

/-- `CommunicationStyle` (fields of the pydantic model). -/
structure CommunicationStyle where
  language_pattern : String
  reasoning_approach : String
  typical_references : List String
  deriving DecidableEq, Repr

/-- `CommunicationStyle(...)` with its field constraints. -/
def mkCommunicationStyle (lp : String) (ra : String) (tr : List String) :
    Except PyErr CommunicationStyle :=
  if 10 ≤ lp.length ∧ 10 ≤ ra.length then .ok ⟨lp, ra, tr⟩
  else .error .validationError

/-- `InteractionGuidelines` (fields of the pydantic model). -/
structure InteractionGuidelines where
  response_structure : String
  engagement_pattern : String
  knowledge_boundaries : List String
  deriving DecidableEq, Repr

/-- `InteractionGuidelines(...)` with its field constraints. -/
def mkInteractionGuidelines (rs : String) (ep : String) (kb : List String) :
    Except PyErr InteractionGuidelines :=
  if 10 ≤ rs.length ∧ 10 ≤ ep.length then .ok ⟨rs, ep, kb⟩
  else .error .validationError

/-- `PersonaConfig` (fields of the pydantic model; `created_at` is the
`datetime.now()` default). -/
structure PersonaConfig where
  name : String
  role : String
  style : String
  model_name : String
  model_provider : String
  temperature : ℚ
  background : PersonaBackground
  communication : CommunicationStyle
  interaction : InteractionGuidelines
  created_at : Time
  deriving DecidableEq, Repr

/-- `PersonaConfig(...)` with its field constraints (`name`,
`model_name`, `model_provider` min length 1; `role`, `style` min length
10; temperature in `[0, 1]`, checked both by the `Field` bounds and the
`validator`). -/
def mkPersonaConfig (name role style mn mp : String) (temp : ℚ)
    (bg : PersonaBackground) (comm : CommunicationStyle)
    (inter : InteractionGuidelines) (now : Time) :
    Except PyErr PersonaConfig :=
  if 1 ≤ name.length ∧ 10 ≤ role.length ∧ 10 ≤ style.length ∧
      1 ≤ mn.length ∧ 1 ≤ mp.length ∧ 0 ≤ temp ∧ temp ≤ 1 then
    .ok ⟨name, role, style, mn, mp, temp, bg, comm, inter, now⟩
  else .error .validationError

/-! ### `PersonaParser` from `dialogllm/core/persona_parser.py` -/

/-- `EXPECTED_SECTIONS` (keys in insertion order). -/
def expectedSectionNames : List String :=
  ["background", "communication", "interaction"]

/-- `EXPECTED_SECTIONS` values. -/
def expectedSectionFields : String → List String
  | "background" => ["historical_context", "expertise_areas", "philosophical_stance"]
  | "communication" => ["language_pattern", "reasoning_approach", "typical_references"]
  | "interaction" => ["response_structure", "engagement_pattern", "knowledge_boundaries"]
  | _ => []

/-- `_extract_json_safely`: direct decode, else decode the slice between
the first `{` and the last `}`; `none` on failure. -/
def extractJsonSafely (content : String) : Option Json :=
  match jsonLoads content with
  | some j => some j
  | none =>
      match braceSlice content with
      | some sub => jsonLoads sub
      | none => none

/-- `_parse_list_field`: comma-separated if a comma occurs, else
line-separated; items stripped, empties dropped; empty input gives `[]`. -/
def parseListField (text : String) : List String :=
  if text = "" then []
  else
    let items :=
      if pyInStr "," text then (pySplitChar text ',').map pyStrip
      else (pySplitChar text '\n').map pyStrip
    items.filter (fun item => item ≠ "")

/-- Strip and drop blank lines: `[line.strip() for line in s.split("\n") if line.strip()]`. -/
def cleanLines (content : String) : List String :=
  ((pySplitChar content '\n').map pyStrip).filter (fun l => l ≠ "")

/-- Loop state step of `_parse_section_content`: fold over the cleaned
lines carrying (result, current key, accumulated value lines). -/
def sectionContentStep (st : List (String × String) × Option String × List String)
    (line : String) : List (String × String) × Option String × List String :=
  let (result, currentKey, currentLines) := st
  if pyInStr ":" line ∧ ¬ pyStartsWith line " " then
    let result1 :=
      match currentKey with
      | some k => dictSet result k (pyStrip (joinWith "\n" currentLines))
      | none => result
    let kv := pySplitFirst line ':'
    let key := pyReplaceChar (pyLower (pyStrip kv.1)) ' ' '_'
    let value := pyStrip kv.2
    (result1, some key, if value ≠ "" then [value] else [])
  else
    match currentKey with
    | some _ => (result, currentKey, currentLines ++ [line])
    | none => (result, currentKey, currentLines)

/-- `_parse_section_content`: `key: value` lines start fields, other lines
continue the current field, the last field is saved only when it has
accumulated lines. -/
def parseSectionContent (content : String) : List (String × String) :=
  let st := (cleanLines content).foldl sectionContentStep ([], none, [])
  match st.2.1 with
  | some k =>
      if st.2.2 ≠ [] then
        dictSet st.1 k (pyStrip (joinWith "\n" st.2.2))
      else st.1
  | none => st.1

/-- Does `line.lower()` contain any `s + ":"` for an expected section `s`
(the `any(...)` in `_extract_section`)? -/
def anyHeaderIn (line : String) : Bool :=
  expectedSectionNames.any (fun s => pyInStr (pyLower s ++ ":") (pyLower line))

/-- The boundary-finding loop of `_extract_section`: returns the last
matching header index and, when found before the end, the index of the
break line. -/
def findSectionBounds (headerLow : String) :
    List String → Nat → Option Nat → Option Nat × Option Nat
  | [], _, st => (st, none)
  | line :: rest, i, st =>
      if pyStartsWith (pyLower line) headerLow then
        findSectionBounds headerLow rest (i + 1) (some i)
      else if st.isSome ∧ st.getD 0 < i ∧ anyHeaderIn line then
        (st, some i)
      else findSectionBounds headerLow rest (i + 1) st

/-- `_extract_section`: locate the section, parse its body; `{}` for a
missing section. -/
def extractSection (content : String) (sectionName : String) :
    List (String × String) :=
  let lines := cleanLines content
  match findSectionBounds (pyLower sectionName ++ ":") lines 0 none with
  | (none, _) => []
  | (some start, stop?) =>
      let stop := stop?.getD lines.length
      parseSectionContent
        (joinWith "\n" ((lines.drop (start + 1)).take (stop - (start + 1))))

/-- `sections[section].get(field, default)` for the string-valued section
dicts. -/
def strGet (d : List (String × String)) (k : String) (dflt : String) : String :=
  (dictLookup d k).getD dflt

/-- The warning-validation loop of `parse_persona_response`: one warning
per expected section whose dict is missing some expected fields. -/
def sectionWarnings (secs : String → List (String × String)) : List String :=
  expectedSectionNames.foldr
    (fun sec acc =>
      let missing :=
        (expectedSectionFields sec).filter
          (fun f => (dictLookup (secs sec) f).isNone)
      if missing ≠ [] then
        ("Missing fields in " ++ sec ++ ": " ++
          joinWith ", " missing) :: acc
      else acc)
    []

/-- A pydantic `str`-typed read of a JSON value. -/
def expectStr : Json → Except PyErr String
  | .str s => .ok s
  | _ => .error .validationError

/-- Elementwise pydantic `str` validation of a list. -/
def expectStrListAux : List Json → Except PyErr (List String)
  | [] => .ok []
  | x :: rest => do
      let s ← expectStr x
      let l ← expectStrListAux rest
      return s :: l

/-- A pydantic `List[str]`-typed read of a JSON value. -/
def expectStrList : Json → Except PyErr (List String)
  | .arr xs => expectStrListAux xs
  | _ => .error .validationError

/-- A pydantic `float`-typed read of a JSON value. -/
def expectNum : Json → Except PyErr ℚ
  | .num q => .ok q
  | _ => .error .validationError

/-- `except Exception: raise PersonaParsingError(...)`. -/
def wrapParsing {α : Type} : Except PyErr α → Except PyErr α
  | .ok a => .ok a
  | .error _ => .error .personaParsingError

/-- Body of `_parse_from_json` before its exception wrapper.  Note:
`warnings` is initialised to `[]` and never appended to on this path. -/
def parseFromJsonBody (data : Json) (model_config : List (String × Json))
    (now : Time) : Except PyErr (PersonaConfig × List String) := do
  let bgObj ← pyGet data "background" (.obj [])
  let hc ← expectStr (← pyGet bgObj "historical_context" (.str "Default historical context"))
  let ea ← expectStrList (← pyGet bgObj "expertise_areas" (.arr [.str "General knowledge"]))
  let ps ← expectStr (← pyGet bgObj "philosophical_stance" (.str "Balanced and objective approach"))
  let background ← mkPersonaBackground hc ea ps
  let commObj ← pyGet data "communication" (.obj [])
  let lp ← expectStr (← pyGet commObj "language_pattern" (.str "Clear and concise communication"))
  let ra ← expectStr (← pyGet commObj "reasoning_approach" (.str "Logical and structured thinking"))
  let tr ← expectStrList (← pyGet commObj "typical_references" (.arr []))
  let communication ← mkCommunicationStyle lp ra tr
  let interObj ← pyGet data "interaction" (.obj [])
  let rs ← expectStr (← pyGet interObj "response_structure" (.str "Organized and systematic responses"))
  let ep ← expectStr (← pyGet interObj "engagement_pattern" (.str "Professional and respectful engagement"))
  let kb ← expectStrList (← pyGet interObj "knowledge_boundaries" (.arr []))
  let interaction ← mkInteractionGuidelines rs ep kb
  let name ← expectStr (← pyGet data "name"
    ((dictLookup model_config "name").getD (.str "Unknown")))
  let role ← expectStr (← pyGet data "role" (.str (pyTake background.historical_context 100)))
  let style ← expectStr (← pyGet data "style" (.str (pyTake communication.language_pattern 100)))
  let mn ← expectStr (← pyIndex (.obj model_config) "model_name")
  let mp ← expectStr (← pyIndex (.obj model_config) "model_provider")
  let temp ← expectNum (← pyIndex (.obj model_config) "temperature")
  let cfg ← mkPersonaConfig name role style mn mp temp background communication interaction now
  return (cfg, [])

/-- `_parse_from_json` (exceptions become `PersonaParsingError`). -/
def parseFromJson (data : Json) (model_config : List (String × Json))
    (now : Time) : Except PyErr (PersonaConfig × List String) :=
  wrapParsing (parseFromJsonBody data model_config now)

/-- The heuristic text path of `parse_persona_response` (after JSON
extraction has failed or produced a falsy value). -/
def parsePersonaText (content : String) (model_config : List (String × Json))
    (now : Time) : Except PyErr (PersonaConfig × List String) := do
  let secs : String → List (String × String) := fun name =>
    if name = "background" then extractSection content "Background"
    else if name = "communication" then extractSection content "Communication"
    else extractSection content "Interaction"
  let warnings := sectionWarnings secs
  let background ← mkPersonaBackground
    (strGet (secs "background") "historical_context" "Default historical context")
    (parseListField (strGet (secs "background") "expertise_areas" "General knowledge"))
    (strGet (secs "background") "philosophical_stance" "Balanced and objective approach")
  let communication ← mkCommunicationStyle
    (strGet (secs "communication") "language_pattern" "Clear and concise communication")
    (strGet (secs "communication") "reasoning_approach" "Logical and structured thinking")
    (parseListField (strGet (secs "communication") "typical_references" ""))
  let interaction ← mkInteractionGuidelines
    (strGet (secs "interaction") "response_structure" "Organized and systematic responses")
    (strGet (secs "interaction") "engagement_pattern" "Professional and respectful engagement")
    (parseListField (strGet (secs "interaction") "knowledge_boundaries" ""))
  let name ← expectStr ((dictLookup model_config "name").getD (.str "Unknown"))
  let role := pyTake (strGet (secs "background") "historical_context" "") 100
  let style := pyTake (strGet (secs "communication") "language_pattern" "") 100
  let mn ← expectStr (← pyIndex (.obj model_config) "model_name")
  let mp ← expectStr (← pyIndex (.obj model_config) "model_provider")
  let temp ← expectNum (← pyIndex (.obj model_config) "temperature")
  let cfg ← mkPersonaConfig name role style mn mp temp background communication interaction now
  return (cfg, warnings)

/-- `PersonaParser.parse_persona_response`: JSON first (when the extracted
value is truthy), then the heuristic text path; every exception surfaces
as `PersonaParsingError`. -/
def parsePersonaResponse (content : String) (model_config : List (String × Json))
    (now : Time) : Except PyErr (PersonaConfig × List String) :=
  wrapParsing
    (match extractJsonSafely content with
     | some j =>
         if j.pyTruthy then parseFromJson j model_config now
         else parsePersonaText content model_config now
     | none => parsePersonaText content model_config now)

/-! ### `Role` and `Message` from `dialogllm/models/base.py` -/

/-- The `Role` string enum. -/
inductive Role where
  | system
  | user
  | assistant
  | manager
  deriving DecidableEq, Repr

/-- `role.value`. -/
def Role.value : Role → String
  | .system => "system"
  | .user => "user"
  | .assistant => "assistant"
  | .manager => "manager"

/-- `Role(x)`: member lookup by value, `ValueError` when no member
matches. -/
def roleOfValue : Json → Except PyErr Role
  | .str "system" => .ok .system
  | .str "user" => .ok .user
  | .str "assistant" => .ok .assistant
  | .str "manager" => .ok .manager
  | _ => .error .valueError

/-- The pydantic `Message` model: required `content` and `role`, optional
`metadata` defaulting to `None`. -/
structure Message where
  content : String
  role : Role
  metadata : Option (List (String × Json))

/-- Pydantic validation of the `metadata` field
(`Optional[Dict[str, Any]]`). -/
def expectMetadata : Json → Except PyErr (Option (List (String × Json)))
  | .null => .ok none
  | .obj fs => .ok (some fs)
  | _ => .error .validationError

/-- `Message(**message_dict)` on a decoded JSON value: the value must be a
dict, `content` a string and `role` a valid role value must be present,
`metadata` is optional; unknown keys are ignored (pydantic v1 default). -/
def decodeMessageJson (j : Json) : Except PyErr Message := do
  match j with
  | .obj fs => do
      let content ←
        match dictLookup fs "content" with
        | some v => expectStr v
        | none => .error .validationError
      let role ←
        match dictLookup fs "role" with
        | some v => roleOfValue v
        | none => .error .validationError
      let metadata ←
        match dictLookup fs "metadata" with
        | some v => expectMetadata v
        | none => .ok none
      return ⟨content, role, metadata⟩
  | _ => .error .typeError

/-- `message.dict()` for a `Message` (field insertion order). -/
def messageToJson (m : Message) : Json :=
  .obj [("content", .str m.content), ("role", .str m.role.value),
        ("metadata", match m.metadata with
                     | some fs => .obj fs
                     | none => .null)]

/-! ### `QueueConnectionManager` from `dialogllm/core/connection.py` -/

/-- State of a `QueueConnectionManager` (`_redis_client` abstracted to
whether a client object is present). -/
structure QueueConnectionManagerState where
  redis_url : String
  redis_client : Bool
  response_queue : String
  task_queue : String
  deriving DecidableEq, Repr

/-- The keyword parameters `QueueConnectionManager.__init__` accepts
besides positional `redis_url`: there are none. -/
def acceptedQueueManagerKwargs : List String := []

/-- Calling `QueueConnectionManager(redis_url, **kwargs)`: Python binds
keyword arguments against `def __init__(self, redis_url)` and raises
`TypeError` for any unexpected keyword. -/
def initQueueConnectionManager (redis_url : String)
    (kwargs : List (String × String)) :
    Except PyErr QueueConnectionManagerState :=
  if kwargs.all (fun kv => acceptedQueueManagerKwargs.contains kv.1) then
    .ok { redis_url := redis_url, redis_client := false,
          response_queue := "llm_responses", task_queue := "llm_tasks" }
  else .error .typeError

/-- `publish_message`: fails fast when not connected, else serialises the
dict and pushes it to `queue_name or self.task_queue` (`or` is Python
truthiness).  The pushed UTF-8 JSON bytes are modelled by the JSON value
itself. -/
def publishMessage (qm : QueueConnectionManagerState) (message : Json)
    (queue_name : Option String) : Except PyErr (String × Json) :=
  if ¬ qm.redis_client then .error .connectionError
  else
    let queue :=
      match queue_name with
      | some q => if q ≠ "" then q else qm.task_queue
      | none => qm.task_queue
    .ok (queue, message)

/-! ### `LLMClient` from `dialogllm/core/client.py` -/

/-- State of an `LLMClient` after `__init__` would have completed. -/
structure LLMClientState where
  client_id : String
  task_queue : String
  response_queue : String
  queue_manager : QueueConnectionManagerState
  model_name : Option String
  model_provider : Option String
  temperature : Option ℚ

/-- `LLMClient.__init__`: derives the id (`client_id or
f"llm_client_{id(self)}"`, `or` by truthiness, with the unknowable
`id(self)` supplied as `auto_id`), builds the per-client queue names, and
constructs the queue manager with `task_queue=`/`response_queue=` keyword
arguments. -/
def initLLMClient (redis_url : String) (client_id : Option String)
    (model_name model_provider : Option String) (temperature : Option ℚ)
    (auto_id : String) : Except PyErr LLMClientState := do
  let cid :=
    match client_id with
    | some c => if c ≠ "" then c else "llm_client_" ++ auto_id
    | none => "llm_client_" ++ auto_id
  let task_queue := "llm_tasks_" ++ cid
  let response_queue := "llm_responses_" ++ cid
  let qm ← initQueueConnectionManager redis_url
    [("task_queue", task_queue), ("response_queue", response_queue)]
  return { client_id := cid, task_queue := task_queue,
           response_queue := response_queue, queue_manager := qm,
           model_name := model_name, model_provider := model_provider,
           temperature := temperature }

/-- `message.update({"client_id": ..., "response_queue": ...})` in
`send_message`. -/
def updClientFields (c : LLMClientState) (m : List (String × Json)) :
    List (String × Json) :=
  dictSet (dictSet m "client_id" (.str c.client_id))
    "response_queue" (.str c.response_queue)

/-- `if self.model_name: message["model_name"] = self.model_name`
(Python truthiness). -/
def updModelName (c : LLMClientState) (m : List (String × Json)) :
    List (String × Json) :=
  match c.model_name with
  | some n => if n ≠ "" then dictSet m "model_name" (.str n) else m
  | none => m

/-- `if self.model_provider: message["model_provider"] = ...`. -/
def updModelProvider (c : LLMClientState) (m : List (String × Json)) :
    List (String × Json) :=
  match c.model_provider with
  | some p => if p ≠ "" then dictSet m "model_provider" (.str p) else m
  | none => m

/-- `if self.temperature is not None: message["temperature"] = ...`. -/
def updTemperature (c : LLMClientState) (m : List (String × Json)) :
    List (String × Json) :=
  match c.temperature with
  | some t => dictSet m "temperature" (.num t)
  | none => m

/-- The `message.update(...)` block of `LLMClient.send_message`: the
caller's dict after the call.  `client_id` and `response_queue` are always
set; `model_name`/`model_provider` when truthy; `temperature` when not
`None`. -/
def sendMessageUpdate (c : LLMClientState) (message : List (String × Json)) :
    List (String × Json) :=
  updTemperature c (updModelProvider c (updModelName c (updClientFields c message)))

/-- `LLMClient.send_message`: update the caller's dict in place, then
publish it to the default (task) queue.  Returns the caller-visible dict
and the publish result. -/
def sendMessage (c : LLMClientState) (message : List (String × Json)) :
    List (String × Json) × Except PyErr (String × Json) :=
  let m := sendMessageUpdate c message
  (m, publishMessage c.queue_manager (.obj m) none)

/-- `LLMClient.get_response`: `queueResult` is what
`queue_manager.get_message` returned within the timeout (`none` on
timeout).  A falsy payload yields `None`; otherwise the payload is decoded
and validated, and failures propagate unchanged (`raise` after logging). -/
def getResponse (queueResult : Option String) : Except PyErr (Option Message) :=
  match queueResult with
  | none => .ok none
  | some raw =>
      if raw ≠ "" then
        match jsonLoads raw with
        | none => .error .jsonDecodeError
        | some j => (decodeMessageJson j).map some
      else .ok none

/-- The awaiting half of `LLMClient.generate_response`: a `None` response
becomes `TimeoutError`; any error from `get_response` is re-raised
unchanged. -/
def generateResponse (queueResult : Option String) : Except PyErr Message :=
  match getResponse queueResult with
  | .error e => .error e
  | .ok none => .error .timeoutError
  | .ok (some m) => .ok m

/-- The simulated response `LLMClient.process_message` builds for a
`generate_response` task. -/
def simulatedResponse (c : LLMClientState) : Message :=
  ⟨"This is a simulated response from " ++ c.client_id, .assistant,
    some [("client_id", .str c.client_id)]⟩

/-- `LLMClient.process_message`: decode the payload, dispatch on
`message.get('task')`, publish a simulated response for
`generate_response` tasks; `json.JSONDecodeError` and every other
exception are caught and logged, so the call always returns normally.
Returns the published messages. -/
def clientProcessMessage (c : LLMClientState) (payload : String) :
    List (String × Json) :=
  let body : Except PyErr (List (String × Json)) := do
    let j ←
      match jsonLoads payload with
      | some j => Except.ok j
      | none => Except.error PyErr.jsonDecodeError
    let task ← pyGet j "task" .null
    let _pl ← pyGet j "payload" .null
    if Json.beq task (.str "generate_response") then do
      let pub ← publishMessage c.queue_manager
        (messageToJson (simulatedResponse c)) (some c.queue_manager.response_queue)
      return [pub]
    else
      return []
  match body with
  | .ok pubs => pubs
  | .error _ => []

/-! ### Task Envelope wire round-trip (spec §6)

`generate_response` builds `{role, content, timestamp, request_id}` and
`send_message` adds `response_queue` (plus the model fields when
configured) before `publish_message` runs `json.dumps`; the consumer runs
`json.loads`.  `json.dumps`/`json.loads` is the identity on such values,
so the wire layer is modelled at the JSON-value level.  Which fields end
up populated in the dict is the producers' business (`send_message`'s
truthiness checks only decide whether the *client's configured* fields
get added; a field already in the dict — e.g. supplied through
`generate_response`'s metadata — is serialised as is, empty string
included), so the encoder below writes every populated envelope field
unconditionally. -/

/-- A Task Envelope over the canonical field set. -/
structure TaskEnvelope where
  role : String
  content : String
  timestamp : String
  request_id : Option String
  response_queue : Option String
  model_name : Option String
  model_provider : Option String
  temperature : Option ℚ
  deriving DecidableEq, Repr

/-- Encode a Task Envelope as the wire dict `json.dumps` serialises: the
three required fields followed by every populated optional field. -/
def encodeTaskEnvelope (e : TaskEnvelope) : Json :=
  let m : List (String × Json) :=
    [("role", .str e.role), ("content", .str e.content),
     ("timestamp", .str e.timestamp)]
  let m :=
    match e.request_id with
    | some r => dictSet m "request_id" (.str r)
    | none => m
  let m :=
    match e.response_queue with
    | some r => dictSet m "response_queue" (.str r)
    | none => m
  let m :=
    match e.model_name with
    | some n => dictSet m "model_name" (.str n)
    | none => m
  let m :=
    match e.model_provider with
    | some p => dictSet m "model_provider" (.str p)
    | none => m
  .obj (match e.temperature with
        | some t => dictSet m "temperature" (.num t)
        | none => m)

/-- Read an optional string field of the decoded wire dict. -/
def readOptStr (fs : List (String × Json)) (k : String) :
    Option (Option String) :=
  match dictLookup fs k with
  | none => some none
  | some (.str s) => some (some s)
  | some _ => none

/-- Decode a wire dict back into a Task Envelope. -/
def decodeTaskEnvelope (j : Json) : Option TaskEnvelope := do
  match j with
  | .obj fs => do
      let role ←
        match dictLookup fs "role" with
        | some (.str s) => some s
        | _ => none
      let content ←
        match dictLookup fs "content" with
        | some (.str s) => some s
        | _ => none
      let timestamp ←
        match dictLookup fs "timestamp" with
        | some (.str s) => some s
        | _ => none
      let request_id ← readOptStr fs "request_id"
      let response_queue ← readOptStr fs "response_queue"
      let model_name ← readOptStr fs "model_name"
      let model_provider ← readOptStr fs "model_provider"
      let temperature ←
        match dictLookup fs "temperature" with
        | none => some none
        | some (.num q) => some (some q)
        | some _ => none
      some ⟨role, content, timestamp, request_id, response_queue,
            model_name, model_provider, temperature⟩
  | _ => none

/-! ### `ConversationManager` from `dialogllm/queue/conversation_manager.py`

Observer callbacks are embedded as functions `Message → Except PyErr Unit`
(an `.error` models the callback raising).  Methods that publish return
the list of `(queue, payload)` pairs pushed to the broker. -/

/-- A stored participant registration: the persona dict. -/
def PersonaDict : Type := List (String × Json)

/-- Lookup in a dict keyed by Python values (`==` comparison). -/
def jdictLookup {α : Type} (d : List (Json × α)) (k : Json) : Option α :=
  (d.find? (fun kv => Json.beq kv.1 k)).map (·.2)

/-- `d[k] = v` for a dict keyed by Python values. -/
def jdictSet {α : Type} (d : List (Json × α)) (k : Json) (v : α) :
    List (Json × α) :=
  match d with
  | [] => [(k, v)]
  | (k1, v1) :: rest =>
      if Json.beq k1 k then (k, v) :: rest else (k1, v1) :: jdictSet rest k v

/-- `ConversationManager` state (`queue_manager._redis_client` abstracted
to `connected`). -/
structure CMState where
  messages : List Message
  message_callbacks : List (Message → Except PyErr Unit)
  active_personas : List (Json × PersonaDict)
  conversation_active : Bool
  connected : Bool

/-- `ConversationManager.__init__`. -/
def initCMState : CMState :=
  { messages := [], message_callbacks := [], active_personas := [],
    conversation_active := false, connected := false }

/-- `register_message_callback`: append to the observer list. -/
def registerMessageCallback (s : CMState)
    (cb : Message → Except PyErr Unit) : CMState :=
  { s with message_callbacks := s.message_callbacks ++ [cb] }

/-- `notify_callbacks`: the for-loop over the registered callbacks; each
invocation's outcome is recorded, an exception is logged and the loop
continues with the next callback. -/
def notifyCallbacks (cbs : List (Message → Except PyErr Unit))
    (msg : Message) : List (Except PyErr Unit) :=
  match cbs with
  | [] => []
  | cb :: rest =>
      let r := cb msg
      r :: notifyCallbacks rest msg

/-- `add_message`: append to `messages`, then notify every observer.
Returns the new state and the invocation trace. -/
def addMessage (s : CMState) (msg : Message) :
    CMState × List (Except PyErr Unit) :=
  ({ s with messages := s.messages ++ [msg] },
   notifyCallbacks s.message_callbacks msg)

/-- `should_end_conversation`: the stub returns `False`. -/
def shouldEndConversation (_msg : Message) : Bool := false

/-- `end_conversation`: clear the participant set and mark inactive (its
body cannot raise). -/
def endConversation (s : CMState) : CMState :=
  { s with active_personas := [], conversation_active := false }

/-- The `for persona in personas` loop of `start_conversation`:
`persona['id']` raises `KeyError` when absent (and a non-dict element or
unhashable id raises `TypeError`), aborting the loop with the insertions
made so far. -/
def startConvLoop (now : Time) (acc : List (Json × PersonaDict)) :
    List Json → List (Json × PersonaDict) × Option PyErr
  | [] => (acc, none)
  | .obj p :: rest =>
      match dictLookup p "id" with
      | none => (acc, some .keyError)
      | some idv =>
          if pyHashable idv then
            startConvLoop now
              (jdictSet acc idv (dictSet p "last_message_time" (.time now)))
              rest
          else (acc, some .typeError)
  | _ :: _ => (acc, some .typeError)

/-- `start_conversation(personas)`: clear the participant set, insert each
persona stamped with `last_message_time`, then mark the conversation
active; an exception is caught and logged, leaving the insertions made
before it and *not* reaching the `conversation_active = True` line. -/
def startConversation (s : CMState) (personasVal : Json) (now : Time) :
    CMState :=
  match personasVal with
  | .arr xs =>
      match startConvLoop now [] xs with
      | (inserted, none) =>
          { s with active_personas := inserted, conversation_active := true }
      | (inserted, some _) =>
          { s with active_personas := inserted }
  | _ =>
      -- iterating a non-list raises after the clear; caught and logged
      { s with active_personas := [] }

/-- `start_conversation` applied to a `List[Dict[str, Any]]` argument (the
declared signature). -/
def startConversationDicts (s : CMState) (personas : List PersonaDict)
    (now : Time) : CMState :=
  startConversation s (.arr (personas.map .obj)) now

/-- Python `str(...)` for a JSON-shaped value interpolated into an
f-string (only string ids occur in the flows studied here). -/
def pyStrOf : Json → String
  | .str s => s
  | .num q => toString q
  | .jbool true => "True"
  | .jbool false => "False"
  | .null => "None"
  | .arr _ => "<list>"
  | .obj _ => "<dict>"
  | .time t => toString (t : Nat)

/-- `str(datetime.now())`. -/
def strOfTime (t : Time) : String := toString (t : Nat)

/-- `handle_assistant_message`: look the persona up by
`metadata['persona_id']`, stamp its `last_message_time`; the stub
`should_end_conversation` is `False` so `end_conversation` is not
reached; any exception is caught and logged. -/
def handleAssistantMessage (s : CMState) (msg : Message) (now : Time) :
    CMState :=
  match msg.metadata with
  | none => s
  | some md =>
      match dictLookup md "persona_id" with
      | none => s
      | some pid =>
          if ¬ pid.pyTruthy then s
          else if ¬ pyHashable pid then s
          else
            match jdictLookup s.active_personas pid with
            | none => s
            | some persona =>
                let persona1 :=
                  dictSet persona "last_message_time" (.time now)
                let s1 :=
                  { s with active_personas :=
                      jdictSet s.active_personas pid persona1 }
                if shouldEndConversation msg then endConversation s1 else s1

/-- `handle_user_message`: fan the content out to every active persona's
task queue with a per-persona response queue; a publish failure is caught,
aborting the remaining publishes. -/
def handleUserMessage (s : CMState) (msg : Message) (now : Time) :
    List (String × Json) :=
  if s.connected then
    s.active_personas.map (fun kv =>
      ("llm_tasks_" ++ pyStrOf kv.1,
       .obj [("role", .str "user"), ("content", .str msg.content),
             ("timestamp", .str (strOfTime now)),
             ("persona_id", kv.1),
             ("response_queue", .str ("llm_responses_" ++ pyStrOf kv.1))]))
  else []

/-- `handle_system_message`: dispatch on `metadata['command']`. -/
def handleSystemMessage (s : CMState) (msg : Message) (now : Time) :
    CMState :=
  match msg.metadata with
  | none => s
  | some md =>
      match dictLookup md "command" with
      | some cmd =>
          if Json.beq cmd (.str "start_conversation") then
            startConversation s ((dictLookup md "personas").getD (.arr [])) now
          else if Json.beq cmd (.str "end_conversation") then
            endConversation s
          else s
      | none => s

/-- The decoding prefix of `ConversationManager.process_message`:
`json.loads`, then `Message(role=Role(message['role']),
content=message['content'], metadata=message.get('metadata', {}))`, in
Python evaluation order. -/
def processMessageDecode (payload : String) : Except PyErr Message := do
  let j ←
    match jsonLoads payload with
    | some j => Except.ok j
    | none => Except.error PyErr.jsonDecodeError
  let roleV ← pyIndex j "role"
  let role ← roleOfValue roleV
  let contentV ← pyIndex j "content"
  let content ← expectStr contentV
  let mdV ← pyGet j "metadata" (.obj [])
  let metadata ← expectMetadata mdV
  return ⟨content, role, metadata⟩

/-- Body of `process_message` before its exception handler: decode, append
to history (notifying observers), then dispatch on the role.  Returns the
state, the observer-invocation trace and the published messages. -/
def processMessageBody (s : CMState) (payload : String) (now : Time) :
    Except PyErr (CMState × List (Except PyErr Unit) × List (String × Json)) := do
  let msg ← processMessageDecode payload
  let (s1, trace) := addMessage s msg
  match msg.role with
  | .assistant => return (handleAssistantMessage s1 msg now, trace, [])
  | .user => return (s1, trace, handleUserMessage s1 msg now)
  | .system => return (handleSystemMessage s1 msg now, trace, [])
  | .manager => return (s1, trace, [])

/-- `process_message`: every exception in the body is caught and logged
(the only raising steps precede any mutation), so the call always returns
normally and a malformed payload leaves the state unchanged. -/
def processMessage (s : CMState) (payload : String) (now : Time) :
    CMState × List (Except PyErr Unit) × List (String × Json) :=
  match processMessageBody s payload now with
  | .ok r => r
  | .error _ => (s, [], [])

/-- One iteration of the consume loop in `ConversationManager.run`: an
inactive conversation skips the payload entirely (`continue`), otherwise
`process_message` runs. -/
def runStep (s : CMState) (payload : String) (now : Time) :
    CMState × List (Except PyErr Unit) × List (String × Json) :=
  if s.conversation_active then processMessage s payload now
  else (s, [], [])

/-- The consume loop of `ConversationManager.run` over a finite prefix of
payloads (each with the instant it is handled), accumulating observer
traces and publishes. -/
def runLoop (s : CMState) :
    List (String × Time) →
    CMState × List (Except PyErr Unit) × List (String × Json)
  | [] => (s, [], [])
  | (p, t) :: rest =>
      let r1 := runStep s p t
      let r2 := runLoop r1.1 rest
      (r2.1, r1.2.1 ++ r2.2.1, r1.2.2 ++ r2.2.2)

/-- Folding `add_message` over a message sequence, keeping each message's
observer-invocation trace. -/
def runAddMessages (s : CMState) :
    List Message → CMState × List (Message × List (Except PyErr Unit))
  | [] => (s, [])
  | m :: rest =>
      let r1 := addMessage s m
      let r2 := runAddMessages r1.1 rest
      (r2.1, (m, r1.2) :: r2.2)

/-! ### Concrete fixtures and statement helpers -/

/-- The model configuration used by the repository's own parser tests. -/
def testModelConfig : List (String × Json) :=
  [("name", .str "TestModel"), ("model_name", .str "test-model"),
   ("model_provider", .str "test-provider"), ("temperature", .num (mkRat 7 10))]

/-- The §8 example persona text: Background section only, Communication
and Interaction absent. -/
def c2PersonaText : String :=
  "Background:\nHistorical Context: x is longer than ten chars\nExpertise Areas: a, b\nPhilosophical Stance: y is longer than ten chars\n"

/-- A structured persona payload with a complete Background section and
the other six expected subsection fields missing. -/
def c4JsonText : String :=
  "\x7b\"background\": \x7b\"historical_context\": \"long enough context here\", \"expertise_areas\": [\"a\"], \"philosophical_stance\": \"stance long enough\"\x7d\x7d"

/-- A connected client state with id `alice` (the state `__init__` aims
to build). -/
def testClientState : LLMClientState :=
  { client_id := "alice", task_queue := "llm_tasks_alice",
    response_queue := "llm_responses_alice",
    queue_manager := { redis_url := "redis://localhost",
                       redis_client := true,
                       response_queue := "llm_responses",
                       task_queue := "llm_tasks" },
    model_name := some "m1", model_provider := some "p1",
    temperature := some (mkRat 1 2) }

/-- The nine expected subsection fields that a JSON persona value fails to
provide (a section counts as providing a field when it is an object with
that key). -/
def jsonMissingExpectedFields (data : Json) : List (String × String) :=
  expectedSectionNames.foldr
    (fun sec acc =>
      ((expectedSectionFields sec).filter (fun f =>
        match data with
        | .obj fs =>
            match dictLookup fs sec with
            | some (.obj sfs) => (dictLookup sfs f).isNone
            | _ => true
        | _ => true)).map (fun f => (sec, f)) ++ acc)
    []

/-- A structured persona payload abstracted by which of its optional
fields are present. -/
structure PersonaJsonData where
  name : Option String
  role : Option String
  style : Option String
  historical_context : Option String
  expertise_areas : Option (List String)
  philosophical_stance : Option String
  language_pattern : Option String
  reasoning_approach : Option String
  typical_references : Option (List String)
  response_structure : Option String
  engagement_pattern : Option String
  knowledge_boundaries : Option (List String)

/-- A present string field as an object entry. -/
def optStrEntry (k : String) : Option String → List (String × Json)
  | some s => [(k, .str s)]
  | none => []

/-- A present string-list field as an object entry. -/
def optListEntry (k : String) : Option (List String) → List (String × Json)
  | some l => [(k, .arr (l.map .str))]
  | none => []

/-- The JSON object a `PersonaJsonData` denotes: the three section objects
carry exactly the present subsection fields, and the optional top-level
`name`/`role`/`style` keys follow (JSON objects are unordered, so the key
order does not affect lookups). -/
def PersonaJsonData.toJson (d : PersonaJsonData) : Json :=
  .obj ([("background", .obj (optStrEntry "historical_context" d.historical_context ++
        optListEntry "expertise_areas" d.expertise_areas ++
        optStrEntry "philosophical_stance" d.philosophical_stance)),
     ("communication", .obj (optStrEntry "language_pattern" d.language_pattern ++
        optStrEntry "reasoning_approach" d.reasoning_approach ++
        optListEntry "typical_references" d.typical_references)),
     ("interaction", .obj (optStrEntry "response_structure" d.response_structure ++
        optStrEntry "engagement_pattern" d.engagement_pattern ++
        optListEntry "knowledge_boundaries" d.knowledge_boundaries))] ++
    optStrEntry "name" d.name ++ optStrEntry "role" d.role ++
    optStrEntry "style" d.style)

/-- An observer callback that returns normally. -/
def cbOk : Message → Except PyErr Unit := fun _ => .ok ()

/-- An observer callback that raises. -/
def cbBad : Message → Except PyErr Unit := fun _ => .error .valueError

/-- A manager state with a failing first observer and a healthy second
one. -/
def cmTwoCallbacks : CMState :=
  { messages := [], message_callbacks := [cbBad, cbOk],
    active_personas := [], conversation_active := true, connected := true }

/-- A concrete message. -/
def msgA : Message := ⟨"hello", .user, none⟩

/-- A participants list whose second dict is missing the `id` key. -/
def c7BadPersonas : List PersonaDict := [[("id", .str "a")], []]

/-- The persona config the parser produces for `c4JsonText` (background
taken from the payload, the six missing fields defaulted). -/
def c4Config : PersonaConfig :=
  { name := "TestModel",
    role := "long enough context here",
    style := "Clear and concise communication",
    model_name := "test-model",
    model_provider := "test-provider",
    temperature := mkRat 7 10,
    background := { historical_context := "long enough context here",
                    expertise_areas := ["a"],
                    philosophical_stance := "stance long enough" },
    communication := { language_pattern := "Clear and concise communication",
                       reasoning_approach := "Logical and structured thinking",
                       typical_references := [] },
    interaction := { response_structure := "Organized and systematic responses",
                     engagement_pattern := "Professional and respectful engagement",
                     knowledge_boundaries := [] },
    created_at := 0 }

/-- A fully-populated concrete Task Envelope. -/
def taskEnvA : TaskEnvelope :=
  { role := "assistant", content := "Hello",
    timestamp := "2024-01-01 00:00:00", request_id := some "alice_1",
    response_queue := some "llm_responses_alice", model_name := some "m1",
    model_provider := some "p1", temperature := some (mkRat 7 10) }

/-- One `start_conversation` insertion: key the stamped persona dict by
its id. -/
def insertPersona (now : Time) (acc : List (Json × PersonaDict))
    (p : PersonaDict) : List (Json × PersonaDict) :=
  jdictSet acc ((dictLookup p "id").getD .null)
    (dictSet p "last_message_time" (.time now))

/-! ## Shared lemmas about the dict primitives -/

/-- `d[k] = v` makes `d.get(k)` return `v`. -/
theorem dictLookup_dictSet_self {α : Type} (d : List (String × α))
    (k : String) (v : α) :
    dictLookup (dictSet d k v) k = some v := by
  induction d with
  | nil => simp [dictSet, dictLookup, List.find?]
  | cons a tl ih =>
      obtain ⟨k1, v1⟩ := a
      by_cases h : k1 = k
      · simp [dictSet, dictLookup, List.find?, h]
      · simpa [dictSet, dictLookup, List.find?, h] using ih

/-- `d[k] = v` leaves every other key's lookup unchanged. -/
theorem dictLookup_dictSet_ne {α : Type} (d : List (String × α))
    (k k' : String) (v : α) (h : k' ≠ k) :
    dictLookup (dictSet d k v) k' = dictLookup d k' := by
  induction d with
  | nil => simp [dictSet, dictLookup, List.find?, Ne.symm h]
  | cons a tl ih =>
      obtain ⟨k1, v1⟩ := a
      by_cases h1 : k1 = k
      · have h2 : ¬ k1 = k' := by rw [h1]; exact fun hh => h hh.symm
        simp [dictSet, dictLookup, List.find?, h1, h2, Ne.symm h]
      · by_cases h2 : k1 = k'
        · simp [dictSet, dictLookup, List.find?, h1, h2, h]
        · simpa [dictSet, dictLookup, List.find?, h1, h2] using ih

/-! ## C1 -/

/-- C1: constructing a client always fails.  `LLMClient.__init__` does
derive the id-specific queue pair `llm_tasks_<id>` / `llm_responses_<id>`,
but it forwards them as `task_queue=`/`response_queue=` keyword arguments
to `QueueConnectionManager.__init__`, which accepts only `redis_url`, so
every construction raises `TypeError` before a client exists. -/
theorem llmclient_init_always_typeerror (redis_url : String)
    (client_id : Option String) (model_name model_provider : Option String)
    (temperature : Option ℚ) (auto_id : String) :
    initLLMClient redis_url client_id model_name model_provider temperature
      auto_id = .error .typeError := by
  cases client_id <;>
    simp [initLLMClient, initQueueConnectionManager,
      acceptedQueueManagerKwargs, bind, Except.bind]

/-! ## C10 -/

/-- C10: while the conversation is not active, the run loop leaves the
state (hence the history) untouched, invokes no observer callback and
publishes nothing: every payload consumed during that time is discarded
unprocessed. -/
theorem run_loop_inactive_discards (s : CMState) (ps : List (String × Time))
    (h : s.conversation_active = false) :
    runLoop s ps = (s, [], []) := by
  induction ps with
  | nil => rfl
  | cons p rest ih =>
      obtain ⟨pl, t⟩ := p
      simp [runLoop, runStep, h, ih]

/-- C10 witness: a concrete inactive state drops a concrete payload. -/
theorem run_loop_inactive_discards_witness :
    runLoop initCMState [("hello", (0 : Time))] = (initCMState, [], []) :=
  run_loop_inactive_discards initCMState [("hello", (0 : Time))] rfl

/-! ## C3 -/

/-- C3 counterexample: a payload that fails to deserialize makes
`generate_response` raise the JSON decode error, which is not
`TimeoutError` — refuting the claim that both failures raise the same
error kind. -/
theorem generate_response_decode_error_not_timeout :
    generateResponse (some "not json") = .error .jsonDecodeError ∧
    PyErr.jsonDecodeError ≠ PyErr.timeoutError :=
  ⟨rfl, by decide⟩

/-- C3 (amended): with no payload within the timeout the request raises
`TimeoutError`; a payload that fails to JSON-decode raises the decode
error, and one that decodes but fails `Message` validation raises that
validation error — the deserialization failures propagate unchanged
rather than becoming `TimeoutError`. -/
theorem generate_response_error_kinds :
    generateResponse none = .error .timeoutError ∧
    (∀ raw, raw ≠ "" → jsonLoads raw = none →
      generateResponse (some raw) = .error .jsonDecodeError) ∧
    (∀ raw j e, jsonLoads raw = some j → decodeMessageJson j = .error e →
      generateResponse (some raw) = .error e) := by
  refine ⟨rfl, ?_, ?_⟩
  · intro raw hne hj
    simp [generateResponse, getResponse, hne, hj]
  · intro raw j e hj he
    have hne : raw ≠ "" := by
      intro h0
      rw [h0] at hj
      have h2 : (none : Option Json) = some j := hj
      exact Option.noConfusion h2
    simp [generateResponse, getResponse, hne, hj, he, Except.map]

/-- C3 amended witness: the three branches at concrete inputs. -/
theorem generate_response_error_kinds_witness :
    generateResponse none = .error .timeoutError ∧
    generateResponse (some "not json") = .error .jsonDecodeError ∧
    generateResponse (some "[1]") = .error .typeError := by
  have h := generate_response_error_kinds
  exact ⟨h.1, h.2.1 "not json" (by decide) rfl,
    h.2.2 "[1]" (.arr [.num 1]) .typeError rfl rfl⟩

/-! ## C5 -/

/-- The notify loop records one invocation per registered callback, in
order, regardless of failures. -/
theorem notifyCallbacks_eq_map (cbs : List (Message → Except PyErr Unit))
    (msg : Message) :
    notifyCallbacks cbs msg = cbs.map (fun cb => cb msg) := by
  induction cbs with
  | nil => rfl
  | cons cb rest ih => simp [notifyCallbacks, ih]

/-- `addMessage` only appends to `messages`. -/
theorem addMessage_state (s : CMState) (m : Message) :
    (addMessage s m).1 =
      { s with messages := s.messages ++ [m] } := rfl

/-- C5: folding `add_message` over any message sequence appends the
messages to the history in exactly insertion order, and every message's
observer trace invokes each registered callback exactly once, in
registration order — a raising callback contributes its error to the
trace without suppressing the remaining invocations. -/
theorem add_message_order_and_observer_discipline (s : CMState)
    (ms : List Message) :
    (runAddMessages s ms).1.messages = s.messages ++ ms ∧
    (runAddMessages s ms).2.map Prod.fst = ms ∧
    ∀ p ∈ (runAddMessages s ms).2,
      p.2 = s.message_callbacks.map (fun cb => cb p.1) := by
  induction ms generalizing s with
  | nil => simp [runAddMessages]
  | cons m rest ih =>
      obtain ⟨h1, h2, h3⟩ := ih (addMessage s m).1
      refine ⟨?_, ?_, ?_⟩
      · simpa [runAddMessages, addMessage] using h1
      · simpa [runAddMessages] using h2
      · intro p hp
        simp only [runAddMessages, List.mem_cons] at hp
        rcases hp with hp | hp
        · subst hp
          simp [addMessage, notifyCallbacks_eq_map]
        · simpa [addMessage] using h3 p hp

/-- C5 witness: with a failing first observer, both observers are still
invoked once each, in order, for the single message, and the history is
the message. -/
theorem add_message_observer_discipline_witness :
    (runAddMessages cmTwoCallbacks [msgA]).1.messages = [] ++ [msgA] ∧
    (runAddMessages cmTwoCallbacks [msgA]).2.map Prod.fst = [msgA] ∧
    (msgA, [Except.error PyErr.valueError, Except.ok ()]).2
      = cmTwoCallbacks.message_callbacks.map (fun cb => cb msgA) :=
  ⟨(add_message_order_and_observer_discipline cmTwoCallbacks [msgA]).1,
   (add_message_order_and_observer_discipline cmTwoCallbacks [msgA]).2.1,
   (add_message_order_and_observer_discipline cmTwoCallbacks [msgA]).2.2
     (msgA, [Except.error PyErr.valueError, Except.ok ()])
     (by simp [runAddMessages, addMessage, cmTwoCallbacks, notifyCallbacks,
       cbOk, cbBad])⟩

/-! ## C6 -/

/-- C6: a payload that is undecodable or missing required fields makes
`ConversationManager.process_message` return normally with the state
unchanged, no observer invoked and nothing published; the run loop then
continues with the remaining payloads exactly as if the bad payload had
not been consumed; and `LLMClient.process_message` likewise returns
normally publishing nothing on an undecodable payload. -/
theorem malformed_payload_logged_and_dropped (s : CMState) (payload : String)
    (now : Time) (e : PyErr) (rest : List (String × Time))
    (c : LLMClientState)
    (hbad : processMessageDecode payload = .error e) :
    processMessage s payload now = (s, [], []) ∧
    runLoop s ((payload, now) :: rest) = runLoop s rest ∧
    (jsonLoads payload = none → clientProcessMessage c payload = []) := by
  have h1 : processMessage s payload now = (s, [], []) := by
    simp [processMessage, processMessageBody, hbad, bind, Except.bind]
  refine ⟨h1, ?_, ?_⟩
  · have hstep : runStep s payload now = (s, [], []) := by
      by_cases hact : s.conversation_active
      · simp [runStep, hact, h1]
      · simp [runStep, hact]
    simp [runLoop, hstep]
  · intro hj
    simp [clientProcessMessage, hj, bind, Except.bind]

/-- C6 witness: a concrete undecodable payload is dropped by both
processing functions. -/
theorem malformed_payload_logged_and_dropped_witness :
    processMessage initCMState "not json" 0 = (initCMState, [], []) ∧
    clientProcessMessage testClientState "not json" = [] := by
  have h := malformed_payload_logged_and_dropped initCMState "not json" 0
    .jsonDecodeError [] testClientState rfl
  exact ⟨h.1, h.2.2 rfl⟩

/-! ## C7 -/

/-- C7 counterexample: starting from a fresh (inactive) manager with
participants `[{"id": "a"}, {}]`, the second dict's missing `id` raises
`KeyError` mid-loop; the caught exception leaves exactly one participant
inserted and the conversation not marked active — a partially-inserted
set with the conversation inactive. -/
theorem start_conversation_partial_counterexample :
    (startConversationDicts initCMState c7BadPersonas 7).conversation_active
        = false ∧
    (startConversationDicts initCMState c7BadPersonas 7).active_personas.map
        Prod.fst = [.str "a"] :=
  ⟨rfl, rfl⟩

/-- The insertion loop succeeds and folds up the insertions when every
persona dict carries a hashable id. -/
theorem startConvLoop_ok (now : Time) (personas : List PersonaDict)
    (acc : List (Json × PersonaDict))
    (h : ∀ p ∈ personas, ∃ v, dictLookup p "id" = some v ∧ pyHashable v = true) :
    startConvLoop now acc (personas.map .obj)
      = (personas.foldl (insertPersona now) acc, none) := by
  induction personas generalizing acc with
  | nil => rfl
  | cons p rest ih =>
      obtain ⟨v, hv, hhash⟩ := h p (List.mem_cons_self p rest)
      have hrest : ∀ q ∈ rest, ∃ v, dictLookup q "id" = some v ∧ pyHashable v = true :=
        fun q hq => h q (List.mem_cons_of_mem p hq)
      simp [startConvLoop, hv, hhash, insertPersona, ih _ hrest]

/-- C7 (amended): for every participants list in which each participant
dict has an `id` key (with a hashable value), `start_conversation`
replaces the participant set atomically — clear, then insert all, each
stamped with `last_message_time` — and marks the conversation active.  A
participant without an `id` aborts the loop with the insertions made so
far and without reaching the activation line. -/
theorem start_conversation_atomic_when_ids_present (s : CMState)
    (personas : List PersonaDict) (now : Time)
    (h : ∀ p ∈ personas, ∃ v, dictLookup p "id" = some v ∧ pyHashable v = true) :
    startConversationDicts s personas now =
      { s with active_personas := personas.foldl (insertPersona now) [],
               conversation_active := true } := by
  simp [startConversationDicts, startConversation, startConvLoop_ok now personas [] h]

/-- C7 amended witness: one well-formed participant is inserted, stamped
and the conversation activated. -/
theorem start_conversation_atomic_witness :
    (startConversationDicts initCMState [[("id", .str "a")]] 3).conversation_active
        = true ∧
    (startConversationDicts initCMState [[("id", .str "a")]] 3).active_personas
        = [(.str "a", [("id", .str "a"), ("last_message_time", .time 3)])] := by
  have h := start_conversation_atomic_when_ids_present initCMState
    [[("id", .str "a")]] 3
    (by
      intro p hp
      simp only [List.mem_singleton] at hp
      subst hp
      exact ⟨.str "a", rfl, rfl⟩)
  rw [h]
  exact ⟨rfl, rfl⟩

/-! ## C9 -/

/-- Keys other than `model_name` are unaffected by the model-name
update. -/
theorem lookup_updModelName_ne (c : LLMClientState)
    (m : List (String × Json)) (k : String) (hk : k ≠ "model_name") :
    dictLookup (updModelName c m) k = dictLookup m k := by
  unfold updModelName
  cases c.model_name with
  | none => rfl
  | some n =>
      by_cases hn : n = ""
      · simp [hn]
      · simp [hn, dictLookup_dictSet_ne m "model_name" k _ hk]

/-- Keys other than `model_provider` are unaffected by the
model-provider update. -/
theorem lookup_updModelProvider_ne (c : LLMClientState)
    (m : List (String × Json)) (k : String) (hk : k ≠ "model_provider") :
    dictLookup (updModelProvider c m) k = dictLookup m k := by
  unfold updModelProvider
  cases c.model_provider with
  | none => rfl
  | some p =>
      by_cases hp : p = ""
      · simp [hp]
      · simp [hp, dictLookup_dictSet_ne m "model_provider" k _ hk]

/-- Keys other than `temperature` are unaffected by the temperature
update. -/
theorem lookup_updTemperature_ne (c : LLMClientState)
    (m : List (String × Json)) (k : String) (hk : k ≠ "temperature") :
    dictLookup (updTemperature c m) k = dictLookup m k := by
  unfold updTemperature
  cases c.temperature with
  | none => rfl
  | some t => simp [dictLookup_dictSet_ne m "temperature" k _ hk]

/-- C9: `send_message` mutates the caller's dict in place (the caller
observes `sendMessageUpdate c message` after the call), which always
gains `client_id` and `response_queue`, plus `model_name`,
`model_provider` and `temperature` exactly when the client is configured
with them (truthy model fields, non-`None` temperature). -/
theorem send_message_updates_caller_dict (c : LLMClientState)
    (message : List (String × Json)) :
    (sendMessage c message).1 = sendMessageUpdate c message ∧
    dictLookup (sendMessageUpdate c message) "client_id"
      = some (.str c.client_id) ∧
    dictLookup (sendMessageUpdate c message) "response_queue"
      = some (.str c.response_queue) ∧
    (∀ n, c.model_name = some n → n ≠ "" →
      dictLookup (sendMessageUpdate c message) "model_name"
        = some (.str n)) ∧
    (∀ p, c.model_provider = some p → p ≠ "" →
      dictLookup (sendMessageUpdate c message) "model_provider"
        = some (.str p)) ∧
    (∀ t, c.temperature = some t →
      dictLookup (sendMessageUpdate c message) "temperature"
        = some (.num t)) := by
  refine ⟨rfl, ?_, ?_, ?_, ?_, ?_⟩
  · rw [sendMessageUpdate, lookup_updTemperature_ne _ _ _ (by decide),
      lookup_updModelProvider_ne _ _ _ (by decide),
      lookup_updModelName_ne _ _ _ (by decide), updClientFields,
      dictLookup_dictSet_ne _ _ _ _ (by decide)]
    exact dictLookup_dictSet_self message "client_id" _
  · rw [sendMessageUpdate, lookup_updTemperature_ne _ _ _ (by decide),
      lookup_updModelProvider_ne _ _ _ (by decide),
      lookup_updModelName_ne _ _ _ (by decide), updClientFields]
    exact dictLookup_dictSet_self _ "response_queue" _
  · intro n hn hne
    rw [sendMessageUpdate, lookup_updTemperature_ne _ _ _ (by decide),
      lookup_updModelProvider_ne _ _ _ (by decide), updModelName, hn]
    simp only [hne, if_true, ne_eq, not_false_iff]
    exact dictLookup_dictSet_self _ "model_name" _
  · intro p hp hne
    rw [sendMessageUpdate, lookup_updTemperature_ne _ _ _ (by decide),
      updModelProvider, hp]
    simp only [hne, if_true, ne_eq, not_false_iff]
    exact dictLookup_dictSet_self _ "model_provider" _
  · intro t ht
    rw [sendMessageUpdate, updTemperature, ht]
    exact dictLookup_dictSet_self _ "temperature" _

/-- C9 witness: a configured client adds all five keys to the caller's
concrete dict. -/
theorem send_message_updates_caller_dict_witness :
    dictLookup (sendMessageUpdate testClientState [("role", .str "user")])
        "client_id" = some (.str "alice") ∧
    dictLookup (sendMessageUpdate testClientState [("role", .str "user")])
        "model_name" = some (.str "m1") ∧
    dictLookup (sendMessageUpdate testClientState [("role", .str "user")])
        "temperature" = some (.num (mkRat 1 2)) := by
  have h := send_message_updates_caller_dict testClientState
    [("role", .str "user")]
  exact ⟨h.2.1, h.2.2.2.1 "m1" rfl (by decide),
    h.2.2.2.2.2 (mkRat 1 2) rfl⟩

/-! ## C2 -/

/-- C2: the §8 example persona text (Background only, Communication and
Interaction absent) does **not** parse: the heuristic path derives
`style` from the raw — absent — Communication section, so `style` is the
empty string, `PersonaConfig`'s `min_length=10` rejects it, and the
parse raises `PersonaParsingError` instead of succeeding with two
warnings.  The second conjunct exhibits the empty derived `style`. -/
theorem example_persona_text_parse_fails :
    parsePersonaResponse c2PersonaText testModelConfig 0
        = .error .personaParsingError ∧
    pyTake (strGet (extractSection c2PersonaText "Communication")
        "language_pattern" "") 100 = "" :=
  ⟨rfl, rfl⟩

/-- C2 context: the code does compute exactly the two per-section
warnings the spec expects before the construction fails. -/
theorem example_persona_text_two_warnings :
    sectionWarnings (fun n =>
      if n = "background" then extractSection c2PersonaText "Background"
      else if n = "communication" then extractSection c2PersonaText "Communication"
      else extractSection c2PersonaText "Interaction") =
      ["Missing fields in communication: language_pattern, reasoning_approach, typical_references",
       "Missing fields in interaction: response_structure, engagement_pattern, knowledge_boundaries"] :=
  rfl

/-! ## C4 -/

/-- C4 counterexample: a structured payload with six of the nine expected
subsection fields missing parses to a valid profile with the documented
defaults but **zero** warnings — refuting "at least one warning per
missing field". -/
theorem structured_missing_fields_zero_warnings :
    (jsonMissingExpectedFields ((extractJsonSafely c4JsonText).getD .null)).length
        = 6 ∧
    parsePersonaResponse c4JsonText testModelConfig 0 = .ok (c4Config, []) :=
  ⟨rfl, rfl⟩

/-! ## C8 -/

/-- C8: for every Task Envelope over the canonical field set, encoding to
the wire dict (the value `json.dumps` serialises and `json.loads`
recovers unchanged — empty-string fields included) and decoding yields
the original envelope in all populated fields: the wire encoding is
lossless for the defined field set. -/
theorem task_envelope_roundtrip (e : TaskEnvelope) :
    decodeTaskEnvelope (encodeTaskEnvelope e) = some e := by
  obtain ⟨role, content, ts, rid, rq, mn, mp, temp⟩ := e
  rcases rid with _ | rid <;> rcases rq with _ | rq <;>
    rcases mn with _ | mn <;> rcases mp with _ | mp <;>
      rcases temp with _ | temp <;>
    simp_all [encodeTaskEnvelope, decodeTaskEnvelope, readOptStr, dictSet,
      dictLookup, List.find?]

/-- C8 applied at concrete envelopes: a fully-populated one, and one
whose model fields are empty strings (still preserved on the wire). -/
theorem task_envelope_roundtrip_witness :
    decodeTaskEnvelope (encodeTaskEnvelope taskEnvA) = some taskEnvA ∧
    decodeTaskEnvelope (encodeTaskEnvelope
        { taskEnvA with model_name := some "", model_provider := some "" })
      = some { taskEnvA with model_name := some "", model_provider := some "" } :=
  ⟨task_envelope_roundtrip taskEnvA,
   task_envelope_roundtrip
     { taskEnvA with model_name := some "", model_provider := some "" }⟩

/-! ## C4 (amended) -/

/-- Pydantic string validation of a present-or-defaulted field. -/
theorem expectStr_mapOrDefault (v : Option String) (d : String) :
    expectStr ((v.map Json.str).getD (.str d)) = .ok (v.getD d) := by
  cases v <;> rfl

/-- Pydantic `List[str]` validation of a list of strings. -/
theorem expectStrList_map (l : List String) :
    expectStrList (.arr (l.map .str)) = .ok l := by
  induction l with
  | nil => rfl
  | cons x xs ih =>
      simp only [expectStrList, List.map_cons, expectStrListAux] at ih ⊢
      simp [ih, expectStr, bind, Except.bind, pure, Except.pure]

/-- `List[str]` validation of the defaulted `expertise_areas` value. -/
theorem expectStrList_gen (v : Option (List String)) :
    expectStrList ((v.map (fun l => Json.arr (l.map Json.str))).getD
      (.arr [.str "General knowledge"])) = .ok (v.getD ["General knowledge"]) := by
  cases v with
  | none => rfl
  | some l => simpa using expectStrList_map l

/-- `List[str]` validation of a list field defaulting to `[]`. -/
theorem expectStrList_nil (v : Option (List String)) :
    expectStrList ((v.map (fun l => Json.arr (l.map Json.str))).getD
      (.arr [])) = .ok (v.getD []) := by
  cases v with
  | none => rfl
  | some l => simpa using expectStrList_map l

/-- C4 (amended): for every structured/JSON persona payload whose present
fields satisfy their length/count constraints, the parse succeeds and
returns a valid profile in which every missing subsection field is
replaced by its documented non-empty default — but with **zero** warnings
(the JSON path never emits any); in particular a well-formed payload with
all sections present also yields zero warnings.  Warnings are produced
only by the heuristic text path, one per section with missing fields. -/
theorem structured_parse_defaults_and_zero_warnings (d : PersonaJsonData) (now : Time)
    (h1 : 10 ≤ (d.historical_context.getD "Default historical context").length)
    (h2 : 1 ≤ (d.expertise_areas.getD ["General knowledge"]).length)
    (h3 : 10 ≤ (d.philosophical_stance.getD "Balanced and objective approach").length)
    (h4 : 10 ≤ (d.language_pattern.getD "Clear and concise communication").length)
    (h5 : 10 ≤ (d.reasoning_approach.getD "Logical and structured thinking").length)
    (h6 : 10 ≤ (d.response_structure.getD "Organized and systematic responses").length)
    (h7 : 10 ≤ (d.engagement_pattern.getD "Professional and respectful engagement").length)
    (h8 : 1 ≤ (d.name.getD "TestModel").length)
    (h9 : 10 ≤ (d.role.getD (pyTake (d.historical_context.getD "Default historical context") 100)).length)
    (h10 : 10 ≤ (d.style.getD (pyTake (d.language_pattern.getD "Clear and concise communication") 100)).length) :
    parseFromJson d.toJson testModelConfig now =
      .ok ({ name := d.name.getD "TestModel",
             role := d.role.getD (pyTake (d.historical_context.getD "Default historical context") 100),
             style := d.style.getD (pyTake (d.language_pattern.getD "Clear and concise communication") 100),
             model_name := "test-model",
             model_provider := "test-provider",
             temperature := mkRat 7 10,
             background := ⟨d.historical_context.getD "Default historical context",
                            d.expertise_areas.getD ["General knowledge"],
                            d.philosophical_stance.getD "Balanced and objective approach"⟩,
             communication := ⟨d.language_pattern.getD "Clear and concise communication",
                               d.reasoning_approach.getD "Logical and structured thinking",
                               d.typical_references.getD []⟩,
             interaction := ⟨d.response_structure.getD "Organized and systematic responses",
                             d.engagement_pattern.getD "Professional and respectful engagement",
                             d.knowledge_boundaries.getD []⟩,
             created_at := now }, []) := by
  obtain ⟨n, r, st, hc, ea, ps, lp, ra, tr, rs, ep, kb⟩ := d
  simp only at h1 h2 h3 h4 h5 h6 h7 h8 h9 h10
  have hbg : pyGet (PersonaJsonData.toJson ⟨n, r, st, hc, ea, ps, lp, ra, tr, rs, ep, kb⟩)
      "background" (.obj []) = .ok (.obj (optStrEntry "historical_context" hc ++
        optListEntry "expertise_areas" ea ++ optStrEntry "philosophical_stance" ps)) := rfl
  have hcomm : pyGet (PersonaJsonData.toJson ⟨n, r, st, hc, ea, ps, lp, ra, tr, rs, ep, kb⟩)
      "communication" (.obj []) = .ok (.obj (optStrEntry "language_pattern" lp ++
        optStrEntry "reasoning_approach" ra ++ optListEntry "typical_references" tr)) := rfl
  have hinter : pyGet (PersonaJsonData.toJson ⟨n, r, st, hc, ea, ps, lp, ra, tr, rs, ep, kb⟩)
      "interaction" (.obj []) = .ok (.obj (optStrEntry "response_structure" rs ++
        optStrEntry "engagement_pattern" ep ++ optListEntry "knowledge_boundaries" kb)) := rfl
  have hname : ∀ dflt, pyGet (PersonaJsonData.toJson ⟨n, r, st, hc, ea, ps, lp, ra, tr, rs, ep, kb⟩)
      "name" (.str dflt) = .ok ((n.map Json.str).getD (.str dflt)) := by
    intro dflt; cases n <;> cases r <;> cases st <;> rfl
  have hrole : ∀ dflt, pyGet (PersonaJsonData.toJson ⟨n, r, st, hc, ea, ps, lp, ra, tr, rs, ep, kb⟩)
      "role" (.str dflt) = .ok ((r.map Json.str).getD (.str dflt)) := by
    intro dflt; cases n <;> cases r <;> cases st <;> rfl
  have hstyle : ∀ dflt, pyGet (PersonaJsonData.toJson ⟨n, r, st, hc, ea, ps, lp, ra, tr, rs, ep, kb⟩)
      "style" (.str dflt) = .ok ((st.map Json.str).getD (.str dflt)) := by
    intro dflt; cases n <;> cases r <;> cases st <;> rfl
  have fld1 : ∀ dflt, pyGet (.obj (optStrEntry "historical_context" hc ++
      optListEntry "expertise_areas" ea ++ optStrEntry "philosophical_stance" ps))
      "historical_context" (.str dflt) = .ok ((hc.map Json.str).getD (.str dflt)) := by
    intro dflt; cases hc <;> cases ea <;> cases ps <;> rfl
  have fld2 : ∀ dflt, pyGet (.obj (optStrEntry "historical_context" hc ++
      optListEntry "expertise_areas" ea ++ optStrEntry "philosophical_stance" ps))
      "expertise_areas" dflt = .ok ((ea.map (fun l => Json.arr (l.map Json.str))).getD dflt) := by
    intro dflt; cases hc <;> cases ea <;> cases ps <;> rfl
  have fld3 : ∀ dflt, pyGet (.obj (optStrEntry "historical_context" hc ++
      optListEntry "expertise_areas" ea ++ optStrEntry "philosophical_stance" ps))
      "philosophical_stance" (.str dflt) = .ok ((ps.map Json.str).getD (.str dflt)) := by
    intro dflt; cases hc <;> cases ea <;> cases ps <;> rfl
  have fld4 : ∀ dflt, pyGet (.obj (optStrEntry "language_pattern" lp ++
      optStrEntry "reasoning_approach" ra ++ optListEntry "typical_references" tr))
      "language_pattern" (.str dflt) = .ok ((lp.map Json.str).getD (.str dflt)) := by
    intro dflt; cases lp <;> cases ra <;> cases tr <;> rfl
  have fld5 : ∀ dflt, pyGet (.obj (optStrEntry "language_pattern" lp ++
      optStrEntry "reasoning_approach" ra ++ optListEntry "typical_references" tr))
      "reasoning_approach" (.str dflt) = .ok ((ra.map Json.str).getD (.str dflt)) := by
    intro dflt; cases lp <;> cases ra <;> cases tr <;> rfl
  have fld6 : ∀ dflt, pyGet (.obj (optStrEntry "language_pattern" lp ++
      optStrEntry "reasoning_approach" ra ++ optListEntry "typical_references" tr))
      "typical_references" dflt = .ok ((tr.map (fun l => Json.arr (l.map Json.str))).getD dflt) := by
    intro dflt; cases lp <;> cases ra <;> cases tr <;> rfl
  have fld7 : ∀ dflt, pyGet (.obj (optStrEntry "response_structure" rs ++
      optStrEntry "engagement_pattern" ep ++ optListEntry "knowledge_boundaries" kb))
      "response_structure" (.str dflt) = .ok ((rs.map Json.str).getD (.str dflt)) := by
    intro dflt; cases rs <;> cases ep <;> cases kb <;> rfl
  have fld8 : ∀ dflt, pyGet (.obj (optStrEntry "response_structure" rs ++
      optStrEntry "engagement_pattern" ep ++ optListEntry "knowledge_boundaries" kb))
      "engagement_pattern" (.str dflt) = .ok ((ep.map Json.str).getD (.str dflt)) := by
    intro dflt; cases rs <;> cases ep <;> cases kb <;> rfl
  have fld9 : ∀ dflt, pyGet (.obj (optStrEntry "response_structure" rs ++
      optStrEntry "engagement_pattern" ep ++ optListEntry "knowledge_boundaries" kb))
      "knowledge_boundaries" dflt = .ok ((kb.map (fun l => Json.arr (l.map Json.str))).getD dflt) := by
    intro dflt; cases rs <;> cases ep <;> cases kb <;> rfl
  have hdef : ((dictLookup testModelConfig "name").getD (.str "Unknown")) = .str "TestModel" := rfl
  have hmn : pyIndex (.obj testModelConfig) "model_name" = .ok (.str "test-model") := rfl
  have hmp : pyIndex (.obj testModelConfig) "model_provider" = .ok (.str "test-provider") := rfl
  have htm : pyIndex (.obj testModelConfig) "temperature" = .ok (.num (mkRat 7 10)) := rfl
  have hlen1 : 1 ≤ "test-model".length := by decide
  have hlen2 : 1 ≤ "test-provider".length := by decide
  have htb1 : (0 : ℚ) ≤ mkRat 7 10 := by decide
  have htb2 : mkRat 7 10 ≤ (1 : ℚ) := by decide
  have hestr : ∀ s : String, expectStr (.str s) = .ok s := fun _ => rfl
  have henum : ∀ q : ℚ, expectNum (.num q) = .ok q := fun _ => rfl
  simp only [parseFromJson, parseFromJsonBody, wrapParsing, bind, Except.bind,
    hbg, hcomm, hinter, hdef, hname, hrole, hstyle,
    fld1, fld2, fld3, fld4, fld5, fld6, fld7, fld8, fld9,
    expectStr_mapOrDefault, expectStrList_gen, expectStrList_nil,
    hmn, hmp, htm, hestr, henum, pure, Except.pure,
    mkPersonaBackground, mkCommunicationStyle, mkInteractionGuidelines,
    mkPersonaConfig,
    h1, h2, h3, h4, h5, h6, h7, h8, h9, h10, hlen1, hlen2, htb1, htb2,
    and_self, and_true, true_and, if_true]

/-- C4 amended witness: the payload with all nine subsection fields (and
`name`/`role`/`style`) absent parses to the fully-defaulted profile with
zero warnings. -/
theorem structured_parse_defaults_witness :
    parseFromJson
        (PersonaJsonData.mk none none none none none none none none none
          none none none).toJson testModelConfig 0 =
      .ok ({ name := "TestModel",
             role := pyTake "Default historical context" 100,
             style := pyTake "Clear and concise communication" 100,
             model_name := "test-model",
             model_provider := "test-provider",
             temperature := mkRat 7 10,
             background := ⟨"Default historical context",
                            ["General knowledge"],
                            "Balanced and objective approach"⟩,
             communication := ⟨"Clear and concise communication",
                               "Logical and structured thinking", []⟩,
             interaction := ⟨"Organized and systematic responses",
                             "Professional and respectful engagement", []⟩,
             created_at := 0 }, []) := by
  have h := structured_parse_defaults_and_zero_warnings
    (PersonaJsonData.mk none none none none none none none none none
      none none none) 0
    (by decide) (by decide) (by decide) (by decide) (by decide) (by decide)
    (by decide) (by decide) (by decide) (by decide)
  exact h


end DialogLLM
